import Mathlib

/-!
Verification of `llmware/setup.py` (the `Setup` class): three loaders
(`load_sample_files`, `load_voice_sample_files`, `load_selected_sample_files`)
that download a zip archive from a public bucket into a workspace
subdirectory, extract it there, and delete the temporary archive.

The module is orchestration over effects, so the embedding makes those
effects explicit:
  - the filesystem is a pair of finite lists of paths (regular files and
    directories), with Python `Path.exists` testing either kind,
    `Path.mkdir(parents=True, exist_ok=True)` failing when a regular file
    occupies the path or one of its ancestors, and `Path.unlink` removing a
    file;
  - the external collaborators (the bucket client
    `CloudBucketManager.pull_file_from_public_s3`, the archive extractor
    `shutil.unpack_archive`, `Path.unlink`) are given by an environment
    oracle that fixes whether each call raises and which entries the archive
    holds; every call the module makes to a collaborator is recorded in an
    event trace;
  - Python exceptions are an explicit error type; the uniform re-raise
    `raise RuntimeError(...) from e` keeps the original error as its cause.
-/

namespace Llmware

/-- A filesystem path, as the list of its components from the root. -/
abbrev FsPath := List String

/-- All nonempty prefixes of a path, the path itself included: the chain of
directories `mkdir(parents=True)` walks, innermost last. -/
def FsPath.ancestors (p : FsPath) : List FsPath :=
  (List.range p.length).map fun k => p.take (k + 1)

/-- The filesystem state: which paths are regular files and which are
directories.  Duplicate entries are harmless; existence is membership. -/
structure FS where
  files : List FsPath
  dirs : List FsPath
deriving DecidableEq, Repr

/-- A regular file is at `p`. -/
def FS.fileExists (fs : FS) (p : FsPath) : Bool :=
  decide (p ∈ fs.files)

/-- A directory is at `p`. -/
def FS.dirExists (fs : FS) (p : FsPath) : Bool :=
  decide (p ∈ fs.dirs)

/-- Python `Path.exists()`: true for a regular file or a directory. -/
def FS.pathExists (fs : FS) (p : FsPath) : Bool :=
  fs.fileExists p || fs.dirExists p

/-- Write (create or overwrite) a regular file at `p`. -/
def FS.writeFile (fs : FS) (p : FsPath) : FS :=
  ⟨p :: fs.files, fs.dirs⟩

/-- Python `Path.unlink()`: remove the regular file at `p`. -/
def FS.removeFile (fs : FS) (p : FsPath) : FS :=
  ⟨fs.files.filter (fun q => decide (q ≠ p)), fs.dirs⟩

/-- Create the directory `p` and all its ancestors. -/
def FS.mkdirAll (fs : FS) (p : FsPath) : FS :=
  ⟨fs.files, FsPath.ancestors p ++ fs.dirs⟩

/-- A Python exception: either the `RuntimeError` the module raises itself,
with its message and its `__cause__` (set by `raise ... from e`; in this
module always present), or any other exception, identified by a tag. -/
inductive PyErr where
  | runtimeError (msg : String) (causeErr : PyErr)
  | exc (tag : String)
deriving DecidableEq, Repr

/-- Python `str(e)` as far as the module uses it. -/
def PyErr.str : PyErr → String
  | .runtimeError m _ => m
  | .exc t => t

/-- The `__cause__` of an exception (`raise ... from e` sets it). -/
def PyErr.cause : PyErr → Option PyErr
  | .runtimeError _ c => some c
  | .exc _ => none

/-- Is the exception a `RuntimeError` raised by the module? -/
def PyErr.isRuntimeError : PyErr → Bool
  | .runtimeError _ _ => true
  | .exc _ => false

/-- Python `Path.mkdir(parents=True, exist_ok=True)`: raises
`FileExistsError` when a regular file occupies the path or an ancestor of
it; otherwise creates the directory chain (existing directories are fine
under `exist_ok`). -/
def FS.mkdirParentsExistOk (fs : FS) (p : FsPath) : Except PyErr FS :=
  if (FsPath.ancestors p).any (fun q => fs.fileExists q) then
    .error (.exc "FileExistsError")
  else
    .ok (fs.mkdirAll p)

/-- One call the module makes to an external collaborator. -/
inductive Event where
  | pullFile (objectKey : String) (localDest : FsPath) (bucket : String)
  | unpackArchive (archive : FsPath) (dest : FsPath)
  | unlink (p : FsPath)
  | setupWorkspace
deriving DecidableEq, Repr

/-- Is the event a storage-client fetch (`pull_file_from_public_s3`)? -/
def Event.isPullFile : Event → Bool
  | .pullFile _ _ _ => true
  | _ => false

/-- Is the event an archive extraction (`shutil.unpack_archive`)? -/
def Event.isUnpackArchive : Event → Bool
  | .unpackArchive _ _ => true
  | _ => false

/-- How many storage-client fetches a trace holds. -/
def countPull (tr : List Event) : Nat :=
  (tr.filter Event.isPullFile).length

/-- The trace holds no storage-client fetch (no network I/O). -/
def networkFree (tr : List Event) : Bool :=
  tr.all fun e => !e.isPullFile

/-- The trace holds neither a storage-client fetch nor an archive
extraction. -/
def clientFree (tr : List Event) : Bool :=
  tr.all fun e => !e.isPullFile && !e.isUnpackArchive

/-- The environment a call runs in: the configuration the module reads
(`LLMWareConfig.get_llmware_path`, the sample-files bucket name) and the
oracle fixing how each external collaborator behaves on this call: whether
the bucket fetch raises, which entries the downloaded archive extracts to,
whether extraction raises, and whether deleting the temporary file raises. -/
structure Env where
  llmware_path : FsPath
  sample_files_bucket : String
  pullOutcome : Option PyErr
  archiveEntries : List String
  unpackOutcome : Option PyErr
  unlinkOutcome : Option PyErr
deriving DecidableEq, Repr

/-- The message of the uniform failure the module raises. -/
def failMsg (folder_name : String) (e : PyErr) : String :=
  "Failed to download and extract " ++ folder_name ++ ": " ++ e.str

/-- The uniform failure: `raise RuntimeError(msg) from e` — a
`RuntimeError` whose cause is the original exception. -/
def wrapErr (folder_name : String) (e : PyErr) : PyErr :=
  .runtimeError (failMsg folder_name e) e

namespace Setup

/-- Embeds `Setup._download_and_unpack`: fetch `<folder_name>.zip` from the
bucket into `sample_files_path`, extract it there, delete the temporary
zip; any exception in the sequence is wrapped into the uniform
`RuntimeError` (with the original as cause) and re-raised, and the steps
after the failing one do not run.  Returns the outcome, the filesystem
after the call, and the trace of collaborator calls made. -/
def download_and_unpack (folder_name : String) (sample_files_path : FsPath)
    (bucket_name : String) (env : Env) (fs : FS) :
    Except PyErr Unit × FS × List Event :=
  let remote_zip := folder_name ++ ".zip"
  let local_zip := sample_files_path ++ [remote_zip]
  match env.pullOutcome with
  | some e =>
      (.error (wrapErr folder_name e), fs,
        [.pullFile remote_zip local_zip bucket_name])
  | none =>
      let fs1 := fs.writeFile local_zip
      match env.unpackOutcome with
      | some e =>
          (.error (wrapErr folder_name e), fs1,
            [.pullFile remote_zip local_zip bucket_name,
             .unpackArchive local_zip sample_files_path])
      | none =>
          let fs2 := env.archiveEntries.foldl
            (fun a n => a.writeFile (sample_files_path ++ [n])) fs1
          match env.unlinkOutcome with
          | some e =>
              (.error (wrapErr folder_name e), fs2,
                [.pullFile remote_zip local_zip bucket_name,
                 .unpackArchive local_zip sample_files_path])
          | none =>
              (.ok (), fs2.removeFile local_zip,
                [.pullFile remote_zip local_zip bucket_name,
                 .unpackArchive local_zip sample_files_path,
                 .unlink local_zip])

end Setup

/-- Modelled from the spec: `LLMWareConfig.setup_llmware_workspace` lives in
`llmware/configs.py`, outside this source tree.  The spec's Workspace
Locator "resolves a base local directory, creating it if missing", so the
model creates the workspace root directory (with its ancestors). -/
def setup_llmware_workspace (env : Env) (fs : FS) : FS :=
  fs.mkdirAll env.llmware_path

/-- The filesystem after the workspace-existence preamble every loader
runs: `if not workspace_path.exists(): config.setup_llmware_workspace()`. -/
def preFS (env : Env) (fs : FS) : FS :=
  if !(fs.pathExists env.llmware_path) then setup_llmware_workspace env fs else fs

/-- The collaborator calls the workspace-existence preamble makes. -/
def preTrace (env : Env) (fs : FS) : List Event :=
  if !(fs.pathExists env.llmware_path) then [Event.setupWorkspace] else []

namespace Setup

/-- The shared body of the three loaders (they are textually this pattern
with different name constants): workspace preamble, existence
short-circuit, `mkdir(parents=True, exist_ok=True)`, then
`_download_and_unpack folder_name`, returning the sample path on
success. -/
def fetchCore (folder_name subdir : String) (env : Env) (fs : FS)
    (over_write : Bool) : Except PyErr FsPath × FS × List Event :=
  let sample_files_path := env.llmware_path ++ [subdir]
  let fs1 := preFS env fs
  let tr1 := preTrace env fs
  if fs1.pathExists sample_files_path && !over_write then
    (.ok sample_files_path, fs1, tr1)
  else
    match fs1.mkdirParentsExistOk sample_files_path with
    | .error e => (.error e, fs1, tr1)
    | .ok fs2 =>
        match download_and_unpack folder_name sample_files_path
            env.sample_files_bucket env fs2 with
        | (.error e, fs3, tr2) => (.error e, fs3, tr1 ++ tr2)
        | (.ok _, fs3, tr2) => (.ok sample_files_path, fs3, tr1 ++ tr2)

/-- Embeds `Setup.load_sample_files(over_write)`: general samples, archive
`sample_files.zip`, subdirectory `sample_files`. -/
def load_sample_files (env : Env) (fs : FS) (over_write : Bool) :
    Except PyErr FsPath × FS × List Event :=
  let workspace_path := env.llmware_path
  let sample_files_path := workspace_path ++ ["sample_files"]
  let fs1 := preFS env fs
  let tr1 := preTrace env fs
  if fs1.pathExists sample_files_path && !over_write then
    (.ok sample_files_path, fs1, tr1)
  else
    match fs1.mkdirParentsExistOk sample_files_path with
    | .error e => (.error e, fs1, tr1)
    | .ok fs2 =>
        match download_and_unpack "sample_files" sample_files_path
            env.sample_files_bucket env fs2 with
        | (.error e, fs3, tr2) => (.error e, fs3, tr1 ++ tr2)
        | (.ok _, fs3, tr2) => (.ok sample_files_path, fs3, tr1 ++ tr2)

/-- Embeds `Setup.load_voice_sample_files(over_write, small_only)`: the
subdirectory is `voice_sample_files_small` or `voice_sample_files` and the
archive `voice_small.zip` or `voice_all.zip`, by `small_only`. -/
def load_voice_sample_files (env : Env) (fs : FS) (over_write : Bool)
    (small_only : Bool) : Except PyErr FsPath × FS × List Event :=
  let workspace_path := env.llmware_path
  let folder_suffix :=
    if small_only then "voice_sample_files_small" else "voice_sample_files"
  let sample_files_path := workspace_path ++ [folder_suffix]
  let fs1 := preFS env fs
  let tr1 := preTrace env fs
  if fs1.pathExists sample_files_path && !over_write then
    (.ok sample_files_path, fs1, tr1)
  else
    match fs1.mkdirParentsExistOk sample_files_path with
    | .error e => (.error e, fs1, tr1)
    | .ok fs2 =>
        let folder_name := if small_only then "voice_small" else "voice_all"
        match download_and_unpack folder_name sample_files_path
            env.sample_files_bucket env fs2 with
        | (.error e, fs3, tr2) => (.error e, fs3, tr1 ++ tr2)
        | (.ok _, fs3, tr2) => (.ok sample_files_path, fs3, tr1 ++ tr2)

/-- Embeds `Setup.load_selected_sample_files(sample_folder, over_write)`:
the caller-supplied folder name is both the archive name and the
subdirectory name. -/
def load_selected_sample_files (env : Env) (fs : FS) (sample_folder : String)
    (over_write : Bool) : Except PyErr FsPath × FS × List Event :=
  let workspace_path := env.llmware_path
  let sample_files_path := workspace_path ++ [sample_folder]
  let fs1 := preFS env fs
  let tr1 := preTrace env fs
  if fs1.pathExists sample_files_path && !over_write then
    (.ok sample_files_path, fs1, tr1)
  else
    match fs1.mkdirParentsExistOk sample_files_path with
    | .error e => (.error e, fs1, tr1)
    | .ok fs2 =>
        match download_and_unpack sample_folder sample_files_path
            env.sample_files_bucket env fs2 with
        | (.error e, fs3, tr2) => (.error e, fs3, tr1 ++ tr2)
        | (.ok _, fs3, tr2) => (.ok sample_files_path, fs3, tr1 ++ tr2)

/-- The call `Setup.load_selected_sample_files(over_write=...)` with the
source's default argument `sample_folder="microsoft_ir"`. -/
def load_selected_sample_files_default (env : Env) (fs : FS)
    (over_write : Bool) : Except PyErr FsPath × FS × List Event :=
  load_selected_sample_files env fs "microsoft_ir" over_write

end Setup

/-- The target directory of `load_sample_files`. -/
def sampleTarget (env : Env) : FsPath :=
  env.llmware_path ++ ["sample_files"]

/-- The target directory of `load_voice_sample_files`. -/
def voiceTarget (env : Env) (small_only : Bool) : FsPath :=
  env.llmware_path ++
    [if small_only then "voice_sample_files_small" else "voice_sample_files"]

/-- The target directory of `load_selected_sample_files`. -/
def selectedTarget (env : Env) (sample_folder : String) : FsPath :=
  env.llmware_path ++ [sample_folder]

/-- The call reaches the download branch: the existence short-circuit does
not fire (the target is absent, or `over_write` is set), and directory
creation succeeds (no regular file occupies the target path or an ancestor
of it). -/
def runsDownload (fs : FS) (tgt : FsPath) (over_write : Bool) : Prop :=
  (fs.pathExists tgt = false ∨ over_write = true) ∧
    ((FsPath.ancestors tgt).any fun q => fs.fileExists q) = false

instance decRunsDownload (fs : FS) (tgt : FsPath) (ow : Bool) :
    Decidable (runsDownload fs tgt ow) := by
  unfold runsDownload
  infer_instance

instance decEqExcept {α β : Type} [DecidableEq α] [DecidableEq β] :
    DecidableEq (Except α β) := fun a b =>
  match a, b with
  | .ok x, .ok y =>
      if h : x = y then isTrue (by rw [h]) else isFalse (by simp [h])
  | .error x, .error y =>
      if h : x = y then isTrue (by rw [h]) else isFalse (by simp [h])
  | .ok _, .error _ => isFalse (by simp)
  | .error _, .ok _ => isFalse (by simp)

/-! ## The three loaders are the shared body at their name constants -/

theorem load_sample_files_eq_core (env : Env) (fs : FS) (ow : Bool) :
    Setup.load_sample_files env fs ow =
      Setup.fetchCore "sample_files" "sample_files" env fs ow := rfl

theorem load_voice_sample_files_eq_core (env : Env) (fs : FS) (ow so : Bool) :
    Setup.load_voice_sample_files env fs ow so =
      Setup.fetchCore (if so then "voice_small" else "voice_all")
        (if so then "voice_sample_files_small" else "voice_sample_files")
        env fs ow := by
  cases so <;> rfl

theorem load_selected_sample_files_eq_core (env : Env) (fs : FS) (f : String)
    (ow : Bool) :
    Setup.load_selected_sample_files env fs f ow =
      Setup.fetchCore f f env fs ow := rfl

/-! ## Path and filesystem lemmas -/

theorem length_le_of_mem_ancestors {q p : FsPath} (h : q ∈ FsPath.ancestors p) :
    q.length ≤ p.length := by
  unfold FsPath.ancestors at h
  simp only [List.mem_map, List.mem_range] at h
  obtain ⟨k, _, rfl⟩ := h
  simp [List.length_take]

theorem self_mem_ancestors {p : FsPath} (h : p ≠ []) : p ∈ FsPath.ancestors p := by
  unfold FsPath.ancestors
  simp only [List.mem_map, List.mem_range]
  refine ⟨p.length - 1, ?_, ?_⟩
  · have : 0 < p.length := List.length_pos.mpr h
    omega
  · have : 0 < p.length := List.length_pos.mpr h
    rw [Nat.sub_add_cancel this]
    exact List.take_length p

theorem mem_ancestors_snoc_false (ws : FsPath) (s : String) :
    (ws ++ [s]) ∉ FsPath.ancestors ws := by
  intro h
  have := length_le_of_mem_ancestors h
  simp [List.length_append] at this

theorem preFS_files (env : Env) (fs : FS) : (preFS env fs).files = fs.files := by
  unfold preFS setup_llmware_workspace FS.mkdirAll
  split <;> rfl

theorem preFS_fileExists (env : Env) (fs : FS) (p : FsPath) :
    (preFS env fs).fileExists p = fs.fileExists p := by
  simp [FS.fileExists, preFS_files]

theorem preFS_dirExists_mono (env : Env) (fs : FS) (q : FsPath)
    (h : fs.dirExists q = true) : (preFS env fs).dirExists q = true := by
  unfold preFS setup_llmware_workspace FS.mkdirAll
  split
  · unfold FS.dirExists at h ⊢
    simp only [decide_eq_true_eq, List.mem_append] at h ⊢
    exact Or.inr (by simpa using h)
  · exact h

theorem preFS_pathExists_snoc (env : Env) (fs : FS) (s : String) :
    (preFS env fs).pathExists (env.llmware_path ++ [s]) =
      fs.pathExists (env.llmware_path ++ [s]) := by
  unfold preFS
  cases hw : fs.pathExists env.llmware_path with
  | true => simp
  | false =>
    simp only [Bool.not_false, if_true]
    rw [Bool.eq_iff_iff]
    simp [setup_llmware_workspace, FS.mkdirAll, FS.pathExists, FS.fileExists,
      FS.dirExists, List.mem_append, mem_ancestors_snoc_false env.llmware_path s]

theorem mkdirAll_dirExists_self (fs : FS) {p : FsPath} (h : p ≠ []) :
    (fs.mkdirAll p).dirExists p = true := by
  unfold FS.mkdirAll FS.dirExists
  simp only [decide_eq_true_eq, List.mem_append]
  exact Or.inl (self_mem_ancestors h)

theorem mkdirAll_dirExists_mono (fs : FS) (p q : FsPath)
    (h : fs.dirExists q = true) : (fs.mkdirAll p).dirExists q = true := by
  unfold FS.mkdirAll FS.dirExists
  unfold FS.dirExists at h
  simp only [decide_eq_true_eq, List.mem_append] at h ⊢
  exact Or.inr (by simpa using h)

theorem foldl_writeFile_dirs (tgt : FsPath) (l : List String) (fs : FS) :
    (l.foldl (fun a n => a.writeFile (tgt ++ [n])) fs).dirs = fs.dirs := by
  induction l generalizing fs with
  | nil => rfl
  | cons n l ih => exact ih _

theorem mem_foldl_writeFile (tgt : FsPath) (l : List String) (fs : FS)
    (q : FsPath) (h : q ∈ fs.files) :
    q ∈ (l.foldl (fun a n => a.writeFile (tgt ++ [n])) fs).files := by
  induction l generalizing fs with
  | nil => exact h
  | cons n l ih => exact ih _ (List.mem_cons_of_mem _ h)

/-! ## Behaviour of `_download_and_unpack` by collaborator outcome -/

theorem dau_pull_fail (f : String) (p : FsPath) (b : String) (env : Env)
    (fs : FS) (e : PyErr) (h : env.pullOutcome = some e) :
    Setup.download_and_unpack f p b env fs =
      (.error (wrapErr f e), fs,
        [.pullFile (f ++ ".zip") (p ++ [f ++ ".zip"]) b]) := by
  simp only [Setup.download_and_unpack, h]

theorem dau_unpack_fail (f : String) (p : FsPath) (b : String) (env : Env)
    (fs : FS) (e : PyErr) (hp : env.pullOutcome = none)
    (hu : env.unpackOutcome = some e) :
    Setup.download_and_unpack f p b env fs =
      (.error (wrapErr f e), fs.writeFile (p ++ [f ++ ".zip"]),
        [.pullFile (f ++ ".zip") (p ++ [f ++ ".zip"]) b,
         .unpackArchive (p ++ [f ++ ".zip"]) p]) := by
  simp only [Setup.download_and_unpack, hp, hu]

theorem dau_ok (f : String) (p : FsPath) (b : String) (env : Env) (fs : FS)
    (hp : env.pullOutcome = none) (hu : env.unpackOutcome = none)
    (hl : env.unlinkOutcome = none) :
    Setup.download_and_unpack f p b env fs =
      (.ok (),
        ((env.archiveEntries.foldl (fun a n => a.writeFile (p ++ [n]))
          (fs.writeFile (p ++ [f ++ ".zip"]))).removeFile (p ++ [f ++ ".zip"])),
        [.pullFile (f ++ ".zip") (p ++ [f ++ ".zip"]) b,
         .unpackArchive (p ++ [f ++ ".zip"]) p,
         .unlink (p ++ [f ++ ".zip"])]) := by
  simp only [Setup.download_and_unpack, hp, hu, hl]

theorem dau_dirs (f : String) (p : FsPath) (b : String) (env : Env) (fs : FS) :
    (Setup.download_and_unpack f p b env fs).2.1.dirs = fs.dirs := by
  unfold Setup.download_and_unpack
  cases hp : env.pullOutcome with
  | some e => rfl
  | none =>
    cases hu : env.unpackOutcome with
    | some e => rfl
    | none =>
      cases hl : env.unlinkOutcome with
      | some e => exact foldl_writeFile_dirs p env.archiveEntries _
      | none => exact foldl_writeFile_dirs p env.archiveEntries _

theorem dau_pull_mem (f : String) (p : FsPath) (b : String) (env : Env)
    (fs : FS) :
    Event.pullFile (f ++ ".zip") (p ++ [f ++ ".zip"]) b ∈
      (Setup.download_and_unpack f p b env fs).2.2 := by
  unfold Setup.download_and_unpack
  cases hp : env.pullOutcome with
  | some e => simp
  | none =>
    cases hu : env.unpackOutcome with
    | some e => simp
    | none =>
      cases hl : env.unlinkOutcome with
      | some e => simp
      | none => simp

theorem dau_pull_shape (f : String) (p : FsPath) (b : String) (env : Env)
    (fs : FS) (k : String) (d : FsPath) (bb : String)
    (h : Event.pullFile k d bb ∈ (Setup.download_and_unpack f p b env fs).2.2) :
    k = f ++ ".zip" ∧ d = p ++ [f ++ ".zip"] ∧ bb = b := by
  unfold Setup.download_and_unpack at h
  cases hp : env.pullOutcome with
  | some e => rw [hp] at h; simpa using h
  | none =>
    rw [hp] at h
    cases hu : env.unpackOutcome with
    | some e => rw [hu] at h; simpa using h
    | none =>
      rw [hu] at h
      cases hl : env.unlinkOutcome with
      | some e => rw [hl] at h; simpa using h
      | none => rw [hl] at h; simpa using h

theorem dau_files_preserved (f : String) (p : FsPath) (b : String) (env : Env)
    (fs : FS) (q : FsPath) (hq : q ∈ fs.files) (hne : q ≠ p ++ [f ++ ".zip"]) :
    q ∈ (Setup.download_and_unpack f p b env fs).2.1.files := by
  unfold Setup.download_and_unpack
  cases hp : env.pullOutcome with
  | some e => exact hq
  | none =>
    cases hu : env.unpackOutcome with
    | some e => exact List.mem_cons_of_mem _ hq
    | none =>
      have hmem : q ∈ (env.archiveEntries.foldl
          (fun a n => a.writeFile (p ++ [n]))
          (fs.writeFile (p ++ [f ++ ".zip"]))).files :=
        mem_foldl_writeFile p env.archiveEntries _ q (List.mem_cons_of_mem _ hq)
      cases hl : env.unlinkOutcome with
      | some e => exact hmem
      | none =>
        unfold FS.removeFile
        simp only [List.mem_filter, decide_eq_true_eq]
        exact ⟨hmem, hne⟩

/-! ## Trace bookkeeping -/

theorem preTrace_clientFree (env : Env) (fs : FS) :
    clientFree (preTrace env fs) = true := by
  unfold preTrace
  split <;> rfl

theorem preTrace_networkFree (env : Env) (fs : FS) :
    networkFree (preTrace env fs) = true := by
  unfold preTrace
  split <;> rfl

theorem preTrace_countPull (env : Env) (fs : FS) :
    countPull (preTrace env fs) = 0 := by
  unfold preTrace
  split <;> rfl

theorem preTrace_no_pull (env : Env) (fs : FS) (k : String) (d : FsPath)
    (b : String) : Event.pullFile k d b ∉ preTrace env fs := by
  unfold preTrace
  split <;> simp

theorem countPull_append (a b : List Event) :
    countPull (a ++ b) = countPull a + countPull b := by
  unfold countPull
  simp [List.filter_append]

theorem networkFree_of_clientFree (tr : List Event)
    (h : clientFree tr = true) : networkFree tr = true := by
  unfold clientFree at h
  unfold networkFree
  simp only [List.all_eq_true, Bool.and_eq_true] at h ⊢
  intro e he
  exact (h e he).1

/-! ## Behaviour of the shared loader body, branch by branch -/

theorem fetchCore_short (f subdir : String) (env : Env) (fs : FS)
    (h : (preFS env fs).pathExists (env.llmware_path ++ [subdir]) = true) :
    Setup.fetchCore f subdir env fs false =
      (.ok (env.llmware_path ++ [subdir]), preFS env fs, preTrace env fs) := by
  simp [Setup.fetchCore, h]

theorem fetchCore_overwrite_mkdir_fail (f subdir : String) (env : Env) (fs : FS)
    (hany : ((FsPath.ancestors (env.llmware_path ++ [subdir])).any
      fun q => fs.fileExists q) = true) :
    Setup.fetchCore f subdir env fs true =
      (.error (.exc "FileExistsError"), preFS env fs, preTrace env fs) := by
  have hany2 : ((FsPath.ancestors (env.llmware_path ++ [subdir])).any
      fun q => (preFS env fs).fileExists q) = true := by
    simpa [preFS_fileExists] using hany
  simp [Setup.fetchCore, FS.mkdirParentsExistOk, hany2]

theorem fetchCore_run (f subdir : String) (env : Env) (fs : FS) (ow : Bool)
    (h : runsDownload fs (env.llmware_path ++ [subdir]) ow) :
    Setup.fetchCore f subdir env fs ow =
      (match Setup.download_and_unpack f (env.llmware_path ++ [subdir])
          env.sample_files_bucket env
          ((preFS env fs).mkdirAll (env.llmware_path ++ [subdir])) with
       | (.error e, fs3, tr2) => (.error e, fs3, preTrace env fs ++ tr2)
       | (.ok _, fs3, tr2) =>
           (.ok (env.llmware_path ++ [subdir]), fs3, preTrace env fs ++ tr2)) := by
  obtain ⟨h1, h2⟩ := h
  have hcond : ((preFS env fs).pathExists (env.llmware_path ++ [subdir]) && !ow)
      = false := by
    rcases h1 with h1 | h1
    · simp [preFS_pathExists_snoc, h1]
    · simp [h1]
  have hany : ((FsPath.ancestors (env.llmware_path ++ [subdir])).any
      fun q => (preFS env fs).fileExists q) = false := by
    simpa [preFS_fileExists] using h2
  simp only [Setup.fetchCore, hcond, Bool.false_eq_true, if_false,
    FS.mkdirParentsExistOk, hany]

theorem fetchCore_run_pull_fail (f subdir : String) (env : Env) (fs : FS)
    (ow : Bool) (e : PyErr)
    (h : runsDownload fs (env.llmware_path ++ [subdir]) ow)
    (he : env.pullOutcome = some e) :
    Setup.fetchCore f subdir env fs ow =
      (.error (wrapErr f e),
       (preFS env fs).mkdirAll (env.llmware_path ++ [subdir]),
       preTrace env fs ++
         [.pullFile (f ++ ".zip") ((env.llmware_path ++ [subdir]) ++ [f ++ ".zip"])
           env.sample_files_bucket]) := by
  rw [fetchCore_run f subdir env fs ow h, dau_pull_fail _ _ _ _ _ e he]

theorem fetchCore_run_unpack_fail (f subdir : String) (env : Env) (fs : FS)
    (ow : Bool) (e : PyErr)
    (h : runsDownload fs (env.llmware_path ++ [subdir]) ow)
    (hp : env.pullOutcome = none) (hu : env.unpackOutcome = some e) :
    Setup.fetchCore f subdir env fs ow =
      (.error (wrapErr f e),
       ((preFS env fs).mkdirAll (env.llmware_path ++ [subdir])).writeFile
         ((env.llmware_path ++ [subdir]) ++ [f ++ ".zip"]),
       preTrace env fs ++
         [.pullFile (f ++ ".zip") ((env.llmware_path ++ [subdir]) ++ [f ++ ".zip"])
           env.sample_files_bucket,
          .unpackArchive ((env.llmware_path ++ [subdir]) ++ [f ++ ".zip"])
           (env.llmware_path ++ [subdir])]) := by
  rw [fetchCore_run f subdir env fs ow h, dau_unpack_fail _ _ _ _ _ e hp hu]

theorem fetchCore_run_ok (f subdir : String) (env : Env) (fs : FS) (ow : Bool)
    (h : runsDownload fs (env.llmware_path ++ [subdir]) ow)
    (hp : env.pullOutcome = none) (hu : env.unpackOutcome = none)
    (hl : env.unlinkOutcome = none) :
    Setup.fetchCore f subdir env fs ow =
      (.ok (env.llmware_path ++ [subdir]),
       ((env.archiveEntries.foldl
           (fun a n => a.writeFile ((env.llmware_path ++ [subdir]) ++ [n]))
           (((preFS env fs).mkdirAll (env.llmware_path ++ [subdir])).writeFile
             ((env.llmware_path ++ [subdir]) ++ [f ++ ".zip"]))).removeFile
         ((env.llmware_path ++ [subdir]) ++ [f ++ ".zip"])),
       preTrace env fs ++
         [.pullFile (f ++ ".zip") ((env.llmware_path ++ [subdir]) ++ [f ++ ".zip"])
           env.sample_files_bucket,
          .unpackArchive ((env.llmware_path ++ [subdir]) ++ [f ++ ".zip"])
           (env.llmware_path ++ [subdir]),
          .unlink ((env.llmware_path ++ [subdir]) ++ [f ++ ".zip"])]) := by
  rw [fetchCore_run f subdir env fs ow h, dau_ok _ _ _ _ _ hp hu hl]

theorem snoc_ne_nil (ws : FsPath) (s : String) : ws ++ [s] ≠ [] := by
  simp

/-- Every call takes one of three branches: the existence short-circuit,
the `mkdir` failure, or the download. -/
theorem fetchCore_cases (f subdir : String) (env : Env) (fs : FS) (ow : Bool) :
    (Setup.fetchCore f subdir env fs ow =
        (.ok (env.llmware_path ++ [subdir]), preFS env fs, preTrace env fs) ∧
      (preFS env fs).pathExists (env.llmware_path ++ [subdir]) = true) ∨
    Setup.fetchCore f subdir env fs ow =
      (.error (.exc "FileExistsError"), preFS env fs, preTrace env fs) ∨
    Setup.fetchCore f subdir env fs ow =
      (match Setup.download_and_unpack f (env.llmware_path ++ [subdir])
          env.sample_files_bucket env
          ((preFS env fs).mkdirAll (env.llmware_path ++ [subdir])) with
       | (.error e, fs3, tr2) => (.error e, fs3, preTrace env fs ++ tr2)
       | (.ok _, fs3, tr2) =>
           (.ok (env.llmware_path ++ [subdir]), fs3, preTrace env fs ++ tr2)) := by
  by_cases hsc : ((preFS env fs).pathExists (env.llmware_path ++ [subdir]) && !ow)
      = true
  · left
    have hpe : (preFS env fs).pathExists (env.llmware_path ++ [subdir]) = true := by
      have := hsc
      simp only [Bool.and_eq_true] at this
      exact this.1
    exact ⟨by simp [Setup.fetchCore, hsc], hpe⟩
  · rw [Bool.not_eq_true] at hsc
    by_cases hany : ((FsPath.ancestors (env.llmware_path ++ [subdir])).any
        fun q => (preFS env fs).fileExists q) = true
    · right; left
      simp [Setup.fetchCore, hsc, FS.mkdirParentsExistOk, hany]
    · rw [Bool.not_eq_true] at hany
      right; right
      simp only [Setup.fetchCore, hsc, Bool.false_eq_true, if_false,
        FS.mkdirParentsExistOk, hany]

/-- Inverting a normal return: the returned path is the target, the target
path exists afterwards, and unless a regular file pre-existed at the target
it is a directory afterwards. -/
theorem fetchCore_ok_inv (f subdir : String) (env : Env) (fs : FS) (ow : Bool)
    (p : FsPath) (fs2 : FS) (tr : List Event)
    (h : Setup.fetchCore f subdir env fs ow = (.ok p, fs2, tr)) :
    p = env.llmware_path ++ [subdir] ∧
      fs2.pathExists (env.llmware_path ++ [subdir]) = true ∧
      (fs.fileExists (env.llmware_path ++ [subdir]) = false →
        fs2.dirExists (env.llmware_path ++ [subdir]) = true) := by
  rcases fetchCore_cases f subdir env fs ow with ⟨heq, hpe⟩ | heq | heq
  · rw [heq] at h
    simp only [Prod.mk.injEq, Except.ok.injEq] at h
    obtain ⟨hp, hfs, -⟩ := h
    subst hp
    refine ⟨rfl, by rw [← hfs]; exact hpe, ?_⟩
    intro hnf
    rw [← hfs]
    have := hpe
    unfold FS.pathExists at this
    rw [preFS_fileExists, hnf] at this
    simpa using this
  · rw [heq] at h
    simp at h
  · rw [heq] at h
    rcases hd : Setup.download_and_unpack f (env.llmware_path ++ [subdir])
        env.sample_files_bucket env
        ((preFS env fs).mkdirAll (env.llmware_path ++ [subdir])) with ⟨r, fs3, tr2⟩
    rw [hd] at h
    cases r with
    | error e => simp at h
    | ok u =>
      simp only [Prod.mk.injEq, Except.ok.injEq] at h
      obtain ⟨hp, hfs, -⟩ := h
      subst hp
      have hdirs : fs3.dirs =
          ((preFS env fs).mkdirAll (env.llmware_path ++ [subdir])).dirs := by
        have := dau_dirs f (env.llmware_path ++ [subdir]) env.sample_files_bucket
          env ((preFS env fs).mkdirAll (env.llmware_path ++ [subdir]))
        rw [hd] at this
        exact this
      have hde : fs3.dirExists (env.llmware_path ++ [subdir]) = true := by
        unfold FS.dirExists
        rw [hdirs]
        exact mkdirAll_dirExists_self _ (snoc_ne_nil env.llmware_path subdir)
      refine ⟨rfl, ?_, fun _ => by rw [← hfs]; exact hde⟩
      rw [← hfs]
      unfold FS.pathExists
      rw [hde]
      simp

/-- Every storage fetch a call makes names the object `<folder_name>.zip`,
targets the file of that name inside the target directory, and addresses
the configured bucket. -/
theorem fetchCore_pull_shape (f subdir : String) (env : Env) (fs : FS)
    (ow : Bool) (k : String) (d : FsPath) (bb : String)
    (h : Event.pullFile k d bb ∈ (Setup.fetchCore f subdir env fs ow).2.2) :
    k = f ++ ".zip" ∧ d = (env.llmware_path ++ [subdir]) ++ [f ++ ".zip"] ∧
      bb = env.sample_files_bucket := by
  rcases fetchCore_cases f subdir env fs ow with ⟨heq, -⟩ | heq | heq
  · rw [heq] at h
    exact absurd h (preTrace_no_pull env fs k d bb)
  · rw [heq] at h
    exact absurd h (preTrace_no_pull env fs k d bb)
  · rw [heq] at h
    rcases hd : Setup.download_and_unpack f (env.llmware_path ++ [subdir])
        env.sample_files_bucket env
        ((preFS env fs).mkdirAll (env.llmware_path ++ [subdir])) with ⟨r, fs3, tr2⟩
    rw [hd] at h
    have hmem : Event.pullFile k d bb ∈ tr2 := by
      cases r with
      | error e =>
        simp only [List.mem_append] at h
        rcases h with h | h
        · exact absurd h (preTrace_no_pull env fs k d bb)
        · exact h
      | ok u =>
        simp only [List.mem_append] at h
        rcases h with h | h
        · exact absurd h (preTrace_no_pull env fs k d bb)
        · exact h
    exact dau_pull_shape f (env.llmware_path ++ [subdir]) env.sample_files_bucket
      env ((preFS env fs).mkdirAll (env.llmware_path ++ [subdir])) k d bb
      (by rw [hd]; exact hmem)

/-- No call ever removes a directory. -/
theorem fetchCore_dirExists_mono (f subdir : String) (env : Env) (fs : FS)
    (ow : Bool) (q : FsPath) (h : fs.dirExists q = true) :
    (Setup.fetchCore f subdir env fs ow).2.1.dirExists q = true := by
  rcases fetchCore_cases f subdir env fs ow with ⟨heq, -⟩ | heq | heq
  · rw [heq]
    exact preFS_dirExists_mono env fs q h
  · rw [heq]
    exact preFS_dirExists_mono env fs q h
  · rw [heq]
    rcases hd : Setup.download_and_unpack f (env.llmware_path ++ [subdir])
        env.sample_files_bucket env
        ((preFS env fs).mkdirAll (env.llmware_path ++ [subdir])) with ⟨r, fs3, tr2⟩
    have hdirs : fs3.dirs =
        ((preFS env fs).mkdirAll (env.llmware_path ++ [subdir])).dirs := by
      have := dau_dirs f (env.llmware_path ++ [subdir]) env.sample_files_bucket
        env ((preFS env fs).mkdirAll (env.llmware_path ++ [subdir]))
      rw [hd] at this
      exact this
    have hde : fs3.dirExists q = true := by
      unfold FS.dirExists
      rw [hdirs]
      exact mkdirAll_dirExists_mono _ _ _ (preFS_dirExists_mono env fs q h)
    cases r with
    | error e => exact hde
    | ok u => exact hde

/-- No call ever removes a pre-existing regular file other than the
temporary archive `<target>/<folder_name>.zip`. -/
theorem fetchCore_files_preserved (f subdir : String) (env : Env) (fs : FS)
    (ow : Bool) (q : FsPath) (hq : q ∈ fs.files)
    (hne : q ≠ (env.llmware_path ++ [subdir]) ++ [f ++ ".zip"]) :
    q ∈ (Setup.fetchCore f subdir env fs ow).2.1.files := by
  rcases fetchCore_cases f subdir env fs ow with ⟨heq, -⟩ | heq | heq
  · rw [heq]
    rw [preFS_files]
    exact hq
  · rw [heq]
    rw [preFS_files]
    exact hq
  · rw [heq]
    rcases hd : Setup.download_and_unpack f (env.llmware_path ++ [subdir])
        env.sample_files_bucket env
        ((preFS env fs).mkdirAll (env.llmware_path ++ [subdir])) with ⟨r, fs3, tr2⟩
    have hin : q ∈ ((preFS env fs).mkdirAll (env.llmware_path ++ [subdir])).files := by
      unfold FS.mkdirAll
      rw [preFS_files]
      exact hq
    have hmem : q ∈ fs3.files := by
      have := dau_files_preserved f (env.llmware_path ++ [subdir])
        env.sample_files_bucket env
        ((preFS env fs).mkdirAll (env.llmware_path ++ [subdir])) q hin hne
      rw [hd] at this
      exact this
    cases r with
    | error e => exact hmem
    | ok u => exact hmem

/-! ## Composite behaviour lemmas -/

theorem load_selected_default_eq_core (env : Env) (fs : FS) (ow : Bool) :
    Setup.load_selected_sample_files_default env fs ow =
      Setup.fetchCore "microsoft_ir" "microsoft_ir" env fs ow := rfl

theorem fetchCore_short_of_dirExists (f subdir : String) (env : Env) (fs : FS)
    (h : fs.dirExists (env.llmware_path ++ [subdir]) = true) :
    (Setup.fetchCore f subdir env fs false).1 =
        .ok (env.llmware_path ++ [subdir]) ∧
      clientFree (Setup.fetchCore f subdir env fs false).2.2 = true := by
  have hpe : (preFS env fs).pathExists (env.llmware_path ++ [subdir]) = true := by
    rw [preFS_pathExists_snoc]
    unfold FS.pathExists
    rw [h]
    simp
  rw [fetchCore_short f subdir env fs hpe]
  exact ⟨rfl, preTrace_clientFree env fs⟩

theorem fetchCore_short_at (f subdir : String) (env2 : Env) (fs : FS)
    (tgt1 : FsPath) (hllm : env2.llmware_path ++ [subdir] = tgt1)
    (h : fs.dirExists tgt1 = true) :
    (Setup.fetchCore f subdir env2 fs false).1 = .ok tgt1 ∧
      clientFree (Setup.fetchCore f subdir env2 fs false).2.2 = true := by
  subst hllm
  exact fetchCore_short_of_dirExists f subdir env2 fs h

theorem fetchCore_second_call (f f2 subdir : String) (env1 env2 : Env)
    (fs fs1 : FS) (ow : Bool) (p : FsPath) (tr : List Event)
    (hllm : env2.llmware_path = env1.llmware_path)
    (h : Setup.fetchCore f subdir env1 fs ow = (.ok p, fs1, tr)) :
    (Setup.fetchCore f2 subdir env2 fs1 false).1 = .ok p ∧
      clientFree (Setup.fetchCore f2 subdir env2 fs1 false).2.2 = true := by
  obtain ⟨hp, hpe, -⟩ := fetchCore_ok_inv f subdir env1 fs ow p fs1 tr h
  have htgt : env2.llmware_path ++ [subdir] = env1.llmware_path ++ [subdir] := by
    rw [hllm]
  have hpe2 : (preFS env2 fs1).pathExists (env2.llmware_path ++ [subdir])
      = true := by
    rw [preFS_pathExists_snoc, htgt]
    exact hpe
  rw [fetchCore_short f2 subdir env2 fs1 hpe2]
  refine ⟨?_, preTrace_clientFree env2 fs1⟩
  rw [htgt, hp]

theorem fetchCore_uniform_failure (f subdir : String) (env : Env) (fs : FS)
    (ow : Bool) (e0 : PyErr)
    (h : runsDownload fs (env.llmware_path ++ [subdir]) ow)
    (hfail : env.pullOutcome = some e0 ∨
      (env.pullOutcome = none ∧ env.unpackOutcome = some e0)) :
    (Setup.fetchCore f subdir env fs ow).1 = .error (wrapErr f e0) ∧
      countPull (Setup.fetchCore f subdir env fs ow).2.2 = 1 := by
  rcases hfail with he | ⟨hp, hu⟩
  · rw [fetchCore_run_pull_fail f subdir env fs ow e0 h he]
    refine ⟨rfl, ?_⟩
    show countPull (preTrace env fs ++
      [.pullFile (f ++ ".zip") ((env.llmware_path ++ [subdir]) ++ [f ++ ".zip"])
        env.sample_files_bucket]) = 1
    rw [countPull_append, preTrace_countPull]
    rfl
  · rw [fetchCore_run_unpack_fail f subdir env fs ow e0 h hp hu]
    refine ⟨rfl, ?_⟩
    show countPull (preTrace env fs ++
      [.pullFile (f ++ ".zip") ((env.llmware_path ++ [subdir]) ++ [f ++ ".zip"])
        env.sample_files_bucket,
       .unpackArchive ((env.llmware_path ++ [subdir]) ++ [f ++ ".zip"])
        (env.llmware_path ++ [subdir])]) = 1
    rw [countPull_append, preTrace_countPull]
    rfl

theorem fetchCore_fail_dir_created (f subdir : String) (env : Env) (fs : FS)
    (ow : Bool) (e0 : PyErr)
    (h : runsDownload fs (env.llmware_path ++ [subdir]) ow)
    (hfail : env.pullOutcome = some e0 ∨
      (env.pullOutcome = none ∧ env.unpackOutcome = some e0)) :
    (Setup.fetchCore f subdir env fs ow).1 = .error (wrapErr f e0) ∧
      (Setup.fetchCore f subdir env fs ow).2.1.dirExists
        (env.llmware_path ++ [subdir]) = true := by
  rcases hfail with he | ⟨hp, hu⟩
  · rw [fetchCore_run_pull_fail f subdir env fs ow e0 h he]
    exact ⟨rfl, mkdirAll_dirExists_self _ (snoc_ne_nil _ _)⟩
  · rw [fetchCore_run_unpack_fail f subdir env fs ow e0 h hp hu]
    exact ⟨rfl, mkdirAll_dirExists_self _ (snoc_ne_nil _ _)⟩

theorem fetchCore_run_dir_created (f subdir : String) (env : Env) (fs : FS)
    (ow : Bool) (h : runsDownload fs (env.llmware_path ++ [subdir]) ow) :
    (Setup.fetchCore f subdir env fs ow).2.1.dirExists
      (env.llmware_path ++ [subdir]) = true := by
  rw [fetchCore_run f subdir env fs ow h]
  rcases hd : Setup.download_and_unpack f (env.llmware_path ++ [subdir])
      env.sample_files_bucket env
      ((preFS env fs).mkdirAll (env.llmware_path ++ [subdir])) with ⟨r, fs3, tr2⟩
  have hdirs : fs3.dirs =
      ((preFS env fs).mkdirAll (env.llmware_path ++ [subdir])).dirs := by
    have := dau_dirs f (env.llmware_path ++ [subdir]) env.sample_files_bucket
      env ((preFS env fs).mkdirAll (env.llmware_path ++ [subdir]))
    rw [hd] at this
    exact this
  have hde : fs3.dirExists (env.llmware_path ++ [subdir]) = true := by
    unfold FS.dirExists
    rw [hdirs]
    exact mkdirAll_dirExists_self _ (snoc_ne_nil env.llmware_path subdir)
  cases r with
  | error e => exact hde
  | ok u => exact hde

theorem dau_unpack_mem (f : String) (p : FsPath) (b : String) (env : Env)
    (fs : FS) (hp : env.pullOutcome = none) :
    Event.unpackArchive (p ++ [f ++ ".zip"]) p ∈
      (Setup.download_and_unpack f p b env fs).2.2 := by
  unfold Setup.download_and_unpack
  rw [hp]
  cases hu : env.unpackOutcome with
  | some e => simp
  | none =>
    cases hl : env.unlinkOutcome with
    | some e => simp
    | none => simp

theorem fetchCore_run_events (f subdir : String) (env : Env) (fs : FS)
    (ow : Bool) (h : runsDownload fs (env.llmware_path ++ [subdir]) ow) :
    Event.pullFile (f ++ ".zip")
        ((env.llmware_path ++ [subdir]) ++ [f ++ ".zip"])
        env.sample_files_bucket ∈ (Setup.fetchCore f subdir env fs ow).2.2 ∧
      (env.pullOutcome = none →
        Event.unpackArchive ((env.llmware_path ++ [subdir]) ++ [f ++ ".zip"])
          (env.llmware_path ++ [subdir]) ∈
          (Setup.fetchCore f subdir env fs ow).2.2) := by
  rw [fetchCore_run f subdir env fs ow h]
  rcases hd : Setup.download_and_unpack f (env.llmware_path ++ [subdir])
      env.sample_files_bucket env
      ((preFS env fs).mkdirAll (env.llmware_path ++ [subdir])) with ⟨r, fs3, tr2⟩
  have h1 := dau_pull_mem f (env.llmware_path ++ [subdir])
    env.sample_files_bucket env
    ((preFS env fs).mkdirAll (env.llmware_path ++ [subdir]))
  rw [hd] at h1
  cases r with
  | error e =>
    refine ⟨List.mem_append_right _ h1, fun hp => ?_⟩
    have h2 := dau_unpack_mem f (env.llmware_path ++ [subdir])
      env.sample_files_bucket env
      ((preFS env fs).mkdirAll (env.llmware_path ++ [subdir])) hp
    rw [hd] at h2
    exact List.mem_append_right _ h2
  | ok u =>
    refine ⟨List.mem_append_right _ h1, fun hp => ?_⟩
    have h2 := dau_unpack_mem f (env.llmware_path ++ [subdir])
      env.sample_files_bucket env
      ((preFS env fs).mkdirAll (env.llmware_path ++ [subdir])) hp
    rw [hd] at h2
    exact List.mem_append_right _ h2

theorem fetchCore_ok_zip_gone (f subdir : String) (env : Env) (fs : FS)
    (ow : Bool) (h : runsDownload fs (env.llmware_path ++ [subdir]) ow)
    (hp : env.pullOutcome = none) (hu : env.unpackOutcome = none)
    (hl : env.unlinkOutcome = none) :
    (Setup.fetchCore f subdir env fs ow).1 =
        .ok (env.llmware_path ++ [subdir]) ∧
      (Setup.fetchCore f subdir env fs ow).2.1.fileExists
        ((env.llmware_path ++ [subdir]) ++ [f ++ ".zip"]) = false := by
  rw [fetchCore_run_ok f subdir env fs ow h hp hu hl]
  refine ⟨rfl, ?_⟩
  unfold FS.removeFile FS.fileExists
  simp [List.mem_filter]

theorem fetchCore_unpack_fail_zip_remains (f subdir : String) (env : Env)
    (fs : FS) (ow : Bool) (e0 : PyErr)
    (h : runsDownload fs (env.llmware_path ++ [subdir]) ow)
    (hp : env.pullOutcome = none) (hu : env.unpackOutcome = some e0) :
    (Setup.fetchCore f subdir env fs ow).1 = .error (wrapErr f e0) ∧
      (Setup.fetchCore f subdir env fs ow).2.1.fileExists
        ((env.llmware_path ++ [subdir]) ++ [f ++ ".zip"]) = true ∧
      (∀ q, Event.unlink q ∉ (Setup.fetchCore f subdir env fs ow).2.2) := by
  rw [fetchCore_run_unpack_fail f subdir env fs ow e0 h hp hu]
  refine ⟨rfl, ?_, ?_⟩
  · unfold FS.writeFile FS.fileExists
    simp
  · intro q
    show Event.unlink q ∉ preTrace env fs ++
      [.pullFile (f ++ ".zip") ((env.llmware_path ++ [subdir]) ++ [f ++ ".zip"])
        env.sample_files_bucket,
       .unpackArchive ((env.llmware_path ++ [subdir]) ++ [f ++ ".zip"])
        (env.llmware_path ++ [subdir])]
    unfold preTrace
    split <;> simp

/-! ## Concrete fixtures for witnesses and counterexamples -/

/-- A concrete workspace root. -/
def wsPath : FsPath := ["home", "user", "llmware_data"]

/-- An environment where every collaborator call succeeds. -/
def envOk : Env :=
  ⟨wsPath, "llmware-sample-docs", none, ["agreement1.pdf", "invoice2.pdf"],
   none, none⟩

/-- An environment where the storage fetch raises. -/
def envPullFail : Env :=
  ⟨wsPath, "llmware-sample-docs", some (.exc "ConnectionError"), [], none, none⟩

/-- An environment where the fetch succeeds and extraction raises. -/
def envUnpackFail : Env :=
  ⟨wsPath, "llmware-sample-docs", none, [], some (.exc "BadZipFile"), none⟩

/-- A workspace with no sample directories yet. -/
def fsEmpty : FS := ⟨[], [["home"], ["home", "user"], wsPath]⟩

/-- A workspace where the sample_files directory already exists. -/
def fsWithSample : FS :=
  ⟨[], [["home"], ["home", "user"], wsPath, wsPath ++ ["sample_files"]]⟩

/-- A workspace where a regular file occupies the sample_files path. -/
def fsFileAtTarget : FS :=
  ⟨[wsPath ++ ["sample_files"]], [["home"], ["home", "user"], wsPath]⟩

/-- A workspace whose sample_files directory holds a leftover temporary
archive from an earlier failed extraction. -/
def fsWithLeftoverZip : FS :=
  ⟨[wsPath ++ ["sample_files", "sample_files.zip"]],
   [["home"], ["home", "user"], wsPath, wsPath ++ ["sample_files"]]⟩

/-! ## The claims -/

/-- C1: for every loader, if the target sample directory already exists and
over_write is false, the call returns that directory path without invoking
the storage client or the archive extractor; hence calling the same loader
twice with over_write=false performs network I/O only on the first call and
both calls return the same path. -/
theorem C1_short_circuit_idempotence :
    (∀ env fs, fs.dirExists (sampleTarget env) = true →
      (Setup.load_sample_files env fs false).1 = .ok (sampleTarget env) ∧
        clientFree (Setup.load_sample_files env fs false).2.2 = true) ∧
    (∀ env fs so, fs.dirExists (voiceTarget env so) = true →
      (Setup.load_voice_sample_files env fs false so).1 =
          .ok (voiceTarget env so) ∧
        clientFree (Setup.load_voice_sample_files env fs false so).2.2 = true) ∧
    (∀ env fs sf, fs.dirExists (selectedTarget env sf) = true →
      (Setup.load_selected_sample_files env fs sf false).1 =
          .ok (selectedTarget env sf) ∧
        clientFree (Setup.load_selected_sample_files env fs sf false).2.2
          = true) ∧
    (∀ env1 env2 fs fs1 tr p, env2.llmware_path = env1.llmware_path →
      Setup.load_sample_files env1 fs false = (.ok p, fs1, tr) →
      (Setup.load_sample_files env2 fs1 false).1 = .ok p ∧
        networkFree (Setup.load_sample_files env2 fs1 false).2.2 = true) ∧
    (∀ env1 env2 fs fs1 tr p so, env2.llmware_path = env1.llmware_path →
      Setup.load_voice_sample_files env1 fs false so = (.ok p, fs1, tr) →
      (Setup.load_voice_sample_files env2 fs1 false so).1 = .ok p ∧
        networkFree (Setup.load_voice_sample_files env2 fs1 false so).2.2
          = true) ∧
    (∀ env1 env2 fs fs1 tr p sf, env2.llmware_path = env1.llmware_path →
      Setup.load_selected_sample_files env1 fs sf false = (.ok p, fs1, tr) →
      (Setup.load_selected_sample_files env2 fs1 sf false).1 = .ok p ∧
        networkFree (Setup.load_selected_sample_files env2 fs1 sf false).2.2
          = true) := by
  refine ⟨?_, ?_, ?_, ?_, ?_, ?_⟩
  · intro env fs h
    rw [load_sample_files_eq_core]
    exact fetchCore_short_of_dirExists _ _ env fs h
  · intro env fs so h
    rw [load_voice_sample_files_eq_core]
    exact fetchCore_short_of_dirExists _ _ env fs h
  · intro env fs sf h
    rw [load_selected_sample_files_eq_core]
    exact fetchCore_short_of_dirExists _ _ env fs h
  · intro env1 env2 fs fs1 tr p hllm hcall
    rw [load_sample_files_eq_core] at hcall
    rw [load_sample_files_eq_core]
    obtain ⟨h1, h2⟩ := fetchCore_second_call "sample_files" "sample_files"
      "sample_files" env1 env2 fs fs1 false p tr hllm hcall
    exact ⟨h1, networkFree_of_clientFree _ h2⟩
  · intro env1 env2 fs fs1 tr p so hllm hcall
    rw [load_voice_sample_files_eq_core] at hcall
    rw [load_voice_sample_files_eq_core]
    obtain ⟨h1, h2⟩ := fetchCore_second_call _ _ _ env1 env2 fs fs1 false
      p tr hllm hcall
    exact ⟨h1, networkFree_of_clientFree _ h2⟩
  · intro env1 env2 fs fs1 tr p sf hllm hcall
    rw [load_selected_sample_files_eq_core] at hcall
    rw [load_selected_sample_files_eq_core]
    obtain ⟨h1, h2⟩ := fetchCore_second_call sf sf sf env1 env2 fs fs1 false
      p tr hllm hcall
    exact ⟨h1, networkFree_of_clientFree _ h2⟩

/-- C1 witness: on a concrete workspace where the sample directory already
exists, the loader returns its path with no storage-client call and no
extraction. -/
theorem C1_short_circuit_idempotence_test :
    fsWithSample.dirExists (sampleTarget envOk) = true ∧
      (Setup.load_sample_files envOk fsWithSample false).1 =
        .ok (sampleTarget envOk) ∧
      clientFree (Setup.load_sample_files envOk fsWithSample false).2.2
        = true := by
  have h := C1_short_circuit_idempotence.1 envOk fsWithSample (by decide)
  exact ⟨by decide, h.1, h.2⟩

/-- C2: for every loader, if the storage fetch or the archive extraction
raises, the operation raises the single uniform RuntimeError wrapper whose
cause is the original error, and the fetch is attempted exactly once
(nothing is retried). -/
theorem C2_uniform_failure_wrapping :
    (∀ env fs ow e0, runsDownload fs (sampleTarget env) ow →
      (env.pullOutcome = some e0 ∨
        (env.pullOutcome = none ∧ env.unpackOutcome = some e0)) →
      (Setup.load_sample_files env fs ow).1 =
          .error (wrapErr "sample_files" e0) ∧
        (wrapErr "sample_files" e0).isRuntimeError = true ∧
        (wrapErr "sample_files" e0).cause = some e0 ∧
        countPull (Setup.load_sample_files env fs ow).2.2 = 1) ∧
    (∀ env fs ow so e0, runsDownload fs (voiceTarget env so) ow →
      (env.pullOutcome = some e0 ∨
        (env.pullOutcome = none ∧ env.unpackOutcome = some e0)) →
      (Setup.load_voice_sample_files env fs ow so).1 =
          .error (wrapErr (if so then "voice_small" else "voice_all") e0) ∧
        (wrapErr (if so then "voice_small" else "voice_all") e0).isRuntimeError
          = true ∧
        (wrapErr (if so then "voice_small" else "voice_all") e0).cause
          = some e0 ∧
        countPull (Setup.load_voice_sample_files env fs ow so).2.2 = 1) ∧
    (∀ env fs ow sf e0, runsDownload fs (selectedTarget env sf) ow →
      (env.pullOutcome = some e0 ∨
        (env.pullOutcome = none ∧ env.unpackOutcome = some e0)) →
      (Setup.load_selected_sample_files env fs sf ow).1 =
          .error (wrapErr sf e0) ∧
        (wrapErr sf e0).isRuntimeError = true ∧
        (wrapErr sf e0).cause = some e0 ∧
        countPull (Setup.load_selected_sample_files env fs sf ow).2.2 = 1) := by
  refine ⟨?_, ?_, ?_⟩
  · intro env fs ow e0 h hfail
    rw [load_sample_files_eq_core]
    obtain ⟨h1, h2⟩ := fetchCore_uniform_failure "sample_files" "sample_files"
      env fs ow e0 h hfail
    exact ⟨h1, rfl, rfl, h2⟩
  · intro env fs ow so e0 h hfail
    rw [load_voice_sample_files_eq_core]
    obtain ⟨h1, h2⟩ := fetchCore_uniform_failure
      (if so then "voice_small" else "voice_all")
      (if so then "voice_sample_files_small" else "voice_sample_files")
      env fs ow e0 h hfail
    exact ⟨h1, rfl, rfl, h2⟩
  · intro env fs ow sf e0 h hfail
    rw [load_selected_sample_files_eq_core]
    obtain ⟨h1, h2⟩ := fetchCore_uniform_failure sf sf env fs ow e0 h hfail
    exact ⟨h1, rfl, rfl, h2⟩

/-- C2 witness: a concrete failing fetch yields the uniform RuntimeError
with the original ConnectionError as cause and exactly one fetch attempt. -/
theorem C2_uniform_failure_wrapping_test :
    runsDownload fsEmpty (sampleTarget envPullFail) false ∧
      (Setup.load_sample_files envPullFail fsEmpty false).1 =
        .error (wrapErr "sample_files" (.exc "ConnectionError")) ∧
      (wrapErr "sample_files" (.exc "ConnectionError")).cause =
        some (.exc "ConnectionError") ∧
      countPull (Setup.load_sample_files envPullFail fsEmpty false).2.2
        = 1 := by
  have h := C2_uniform_failure_wrapping.1 envPullFail fsEmpty false
    (.exc "ConnectionError") (by decide) (Or.inl rfl)
  exact ⟨by decide, h.1, h.2.2.1, h.2.2.2⟩

/-- The archive name `load_voice_sample_files` picks from `small_only`. -/
def voiceFolder (small_only : Bool) : String :=
  if small_only then "voice_small" else "voice_all"

/-- C3 counterexample: with over_write=true and a regular file occupying
the target path (which therefore exists), `mkdir` raises FileExistsError
before any storage fetch or extraction: the download-and-unpack sequence is
not performed, refuting the claim that over_write=true always performs
it. -/
theorem C3_counterexample :
    fsFileAtTarget.pathExists (sampleTarget envOk) = true ∧
      (Setup.load_sample_files envOk fsFileAtTarget true).1 =
        .error (.exc "FileExistsError") ∧
      clientFree (Setup.load_sample_files envOk fsFileAtTarget true).2.2
        = true := by
  exact ⟨by decide, by decide, by decide⟩

/-- C3 (amended): with over_write=true, whenever no regular file occupies
the target path or an ancestor of it, every loader performs the
download-and-unpack sequence — it issues the storage fetch, and the
extraction follows whenever the fetch succeeds — in particular even when
the target directory already exists; if a regular file occupies the target
path or an ancestor, directory creation raises FileExistsError before any
fetch or extraction. -/
theorem C3_overwrite_always_downloads :
    (∀ env fs, ((FsPath.ancestors (sampleTarget env)).any
        fun q => fs.fileExists q) = false →
      Event.pullFile "sample_files.zip" (sampleTarget env ++ ["sample_files.zip"])
          env.sample_files_bucket ∈ (Setup.load_sample_files env fs true).2.2 ∧
        (env.pullOutcome = none →
          Event.unpackArchive (sampleTarget env ++ ["sample_files.zip"])
            (sampleTarget env) ∈ (Setup.load_sample_files env fs true).2.2)) ∧
    (∀ env fs so, ((FsPath.ancestors (voiceTarget env so)).any
        fun q => fs.fileExists q) = false →
      Event.pullFile (voiceFolder so ++ ".zip")
          (voiceTarget env so ++ [voiceFolder so ++ ".zip"])
          env.sample_files_bucket ∈
          (Setup.load_voice_sample_files env fs true so).2.2 ∧
        (env.pullOutcome = none →
          Event.unpackArchive (voiceTarget env so ++ [voiceFolder so ++ ".zip"])
            (voiceTarget env so) ∈
            (Setup.load_voice_sample_files env fs true so).2.2)) ∧
    (∀ env fs sf, ((FsPath.ancestors (selectedTarget env sf)).any
        fun q => fs.fileExists q) = false →
      Event.pullFile (sf ++ ".zip") (selectedTarget env sf ++ [sf ++ ".zip"])
          env.sample_files_bucket ∈
          (Setup.load_selected_sample_files env fs sf true).2.2 ∧
        (env.pullOutcome = none →
          Event.unpackArchive (selectedTarget env sf ++ [sf ++ ".zip"])
            (selectedTarget env sf) ∈
            (Setup.load_selected_sample_files env fs sf true).2.2)) ∧
    (∀ env fs, ((FsPath.ancestors (sampleTarget env)).any
        fun q => fs.fileExists q) = true →
      (Setup.load_sample_files env fs true).1 = .error (.exc "FileExistsError") ∧
        clientFree (Setup.load_sample_files env fs true).2.2 = true) ∧
    (∀ env fs so, ((FsPath.ancestors (voiceTarget env so)).any
        fun q => fs.fileExists q) = true →
      (Setup.load_voice_sample_files env fs true so).1 =
          .error (.exc "FileExistsError") ∧
        clientFree (Setup.load_voice_sample_files env fs true so).2.2 = true) ∧
    (∀ env fs sf, ((FsPath.ancestors (selectedTarget env sf)).any
        fun q => fs.fileExists q) = true →
      (Setup.load_selected_sample_files env fs sf true).1 =
          .error (.exc "FileExistsError") ∧
        clientFree (Setup.load_selected_sample_files env fs sf true).2.2
          = true) := by
  refine ⟨?_, ?_, ?_, ?_, ?_, ?_⟩
  · intro env fs hany
    rw [load_sample_files_eq_core]
    exact fetchCore_run_events "sample_files" "sample_files" env fs true
      ⟨Or.inr rfl, hany⟩
  · intro env fs so hany
    rw [load_voice_sample_files_eq_core]
    exact fetchCore_run_events (if so then "voice_small" else "voice_all")
      (if so then "voice_sample_files_small" else "voice_sample_files")
      env fs true ⟨Or.inr rfl, hany⟩
  · intro env fs sf hany
    rw [load_selected_sample_files_eq_core]
    exact fetchCore_run_events sf sf env fs true ⟨Or.inr rfl, hany⟩
  · intro env fs hany
    rw [load_sample_files_eq_core,
      fetchCore_overwrite_mkdir_fail "sample_files" "sample_files" env fs hany]
    exact ⟨rfl, preTrace_clientFree env fs⟩
  · intro env fs so hany
    rw [load_voice_sample_files_eq_core,
      fetchCore_overwrite_mkdir_fail (if so then "voice_small" else "voice_all")
        (if so then "voice_sample_files_small" else "voice_sample_files")
        env fs hany]
    exact ⟨rfl, preTrace_clientFree env fs⟩
  · intro env fs sf hany
    rw [load_selected_sample_files_eq_core,
      fetchCore_overwrite_mkdir_fail sf sf env fs hany]
    exact ⟨rfl, preTrace_clientFree env fs⟩

/-- C3 witness: on a concrete workspace where the sample directory already
exists as a directory, the over_write=true call does issue the storage
fetch. -/
theorem C3_overwrite_always_downloads_test :
    ((FsPath.ancestors (sampleTarget envOk)).any
        fun q => fsWithSample.fileExists q) = false ∧
      Event.pullFile "sample_files.zip"
        (sampleTarget envOk ++ ["sample_files.zip"]) envOk.sample_files_bucket
        ∈ (Setup.load_sample_files envOk fsWithSample true).2.2 := by
  have h := C3_overwrite_always_downloads.1 envOk fsWithSample (by decide)
  exact ⟨by decide, h.1⟩

/-- C4: voice sample loading with small_only=true requests voice_small.zip
and creates/returns the voice_sample_files_small directory under the
workspace root; with small_only=false it requests voice_all.zip and
creates/returns voice_sample_files. -/
theorem C4_voice_naming :
    (∀ env fs ow k d b,
      Event.pullFile k d b ∈ (Setup.load_voice_sample_files env fs ow true).2.2 →
      k = "voice_small.zip" ∧ d = voiceTarget env true ++ ["voice_small.zip"] ∧
        b = env.sample_files_bucket) ∧
    (∀ env fs ow p fs2 tr,
      Setup.load_voice_sample_files env fs ow true = (.ok p, fs2, tr) →
      p = voiceTarget env true ∧ fs2.pathExists p = true) ∧
    (∀ env fs ow, runsDownload fs (voiceTarget env true) ow →
      Event.pullFile "voice_small.zip" (voiceTarget env true ++ ["voice_small.zip"])
          env.sample_files_bucket ∈
          (Setup.load_voice_sample_files env fs ow true).2.2 ∧
        (Setup.load_voice_sample_files env fs ow true).2.1.dirExists
          (voiceTarget env true) = true) ∧
    (∀ env fs ow k d b,
      Event.pullFile k d b ∈ (Setup.load_voice_sample_files env fs ow false).2.2 →
      k = "voice_all.zip" ∧ d = voiceTarget env false ++ ["voice_all.zip"] ∧
        b = env.sample_files_bucket) ∧
    (∀ env fs ow p fs2 tr,
      Setup.load_voice_sample_files env fs ow false = (.ok p, fs2, tr) →
      p = voiceTarget env false ∧ fs2.pathExists p = true) ∧
    (∀ env fs ow, runsDownload fs (voiceTarget env false) ow →
      Event.pullFile "voice_all.zip" (voiceTarget env false ++ ["voice_all.zip"])
          env.sample_files_bucket ∈
          (Setup.load_voice_sample_files env fs ow false).2.2 ∧
        (Setup.load_voice_sample_files env fs ow false).2.1.dirExists
          (voiceTarget env false) = true) := by
  refine ⟨?_, ?_, ?_, ?_, ?_, ?_⟩
  · intro env fs ow k d b hmem
    rw [load_voice_sample_files_eq_core] at hmem
    exact fetchCore_pull_shape _ _ env fs ow k d b hmem
  · intro env fs ow p fs2 tr hcall
    rw [load_voice_sample_files_eq_core] at hcall
    obtain ⟨hp, hpe, -⟩ := fetchCore_ok_inv _ _ env fs ow p fs2 tr hcall
    subst hp
    exact ⟨rfl, hpe⟩
  · intro env fs ow h
    rw [load_voice_sample_files_eq_core]
    exact ⟨(fetchCore_run_events _ _ env fs ow h).1,
      fetchCore_run_dir_created _ _ env fs ow h⟩
  · intro env fs ow k d b hmem
    rw [load_voice_sample_files_eq_core] at hmem
    exact fetchCore_pull_shape _ _ env fs ow k d b hmem
  · intro env fs ow p fs2 tr hcall
    rw [load_voice_sample_files_eq_core] at hcall
    obtain ⟨hp, hpe, -⟩ := fetchCore_ok_inv _ _ env fs ow p fs2 tr hcall
    subst hp
    exact ⟨rfl, hpe⟩
  · intro env fs ow h
    rw [load_voice_sample_files_eq_core]
    exact ⟨(fetchCore_run_events _ _ env fs ow h).1,
      fetchCore_run_dir_created _ _ env fs ow h⟩

/-- C4 witness: on a concrete empty workspace, the small_only=true call
fetches voice_small.zip and creates voice_sample_files_small. -/
theorem C4_voice_naming_test :
    runsDownload fsEmpty (voiceTarget envOk true) false ∧
      Event.pullFile "voice_small.zip"
        (voiceTarget envOk true ++ ["voice_small.zip"]) envOk.sample_files_bucket
        ∈ (Setup.load_voice_sample_files envOk fsEmpty false true).2.2 ∧
      (Setup.load_voice_sample_files envOk fsEmpty false true).2.1.dirExists
        (voiceTarget envOk true) = true := by
  have h := C4_voice_naming.2.2.1 envOk fsEmpty false (by decide)
  exact ⟨by decide, h.1, h.2⟩

/-- C5: after a call on any of the three loaders in which the target
directory was created but download-and-unpack then raised, every subsequent
call of any loader with the same target directory and over_write=false
short-circuits on bare directory existence: it returns the path with no
storage-client call, although the directory may be empty or partially
extracted. -/
theorem C5_failed_run_then_short_circuit :
    (∀ env1 fs ow e0, runsDownload fs (sampleTarget env1) ow →
      (env1.pullOutcome = some e0 ∨
        (env1.pullOutcome = none ∧ env1.unpackOutcome = some e0)) →
      (Setup.load_sample_files env1 fs ow).1 =
          .error (wrapErr "sample_files" e0) ∧
        (Setup.load_sample_files env1 fs ow).2.1.dirExists (sampleTarget env1)
          = true ∧
        (∀ env2, sampleTarget env2 = sampleTarget env1 →
          (Setup.load_sample_files env2
              (Setup.load_sample_files env1 fs ow).2.1 false).1 =
              .ok (sampleTarget env1) ∧
            clientFree (Setup.load_sample_files env2
              (Setup.load_sample_files env1 fs ow).2.1 false).2.2 = true) ∧
        (∀ env2 so2, voiceTarget env2 so2 = sampleTarget env1 →
          (Setup.load_voice_sample_files env2
              (Setup.load_sample_files env1 fs ow).2.1 false so2).1 =
              .ok (sampleTarget env1) ∧
            clientFree (Setup.load_voice_sample_files env2
              (Setup.load_sample_files env1 fs ow).2.1 false so2).2.2 = true) ∧
        (∀ env2 sf2, selectedTarget env2 sf2 = sampleTarget env1 →
          (Setup.load_selected_sample_files env2
              (Setup.load_sample_files env1 fs ow).2.1 sf2 false).1 =
              .ok (sampleTarget env1) ∧
            clientFree (Setup.load_selected_sample_files env2
              (Setup.load_sample_files env1 fs ow).2.1 sf2 false).2.2
              = true)) ∧
    (∀ env1 fs ow so e0, runsDownload fs (voiceTarget env1 so) ow →
      (env1.pullOutcome = some e0 ∨
        (env1.pullOutcome = none ∧ env1.unpackOutcome = some e0)) →
      (Setup.load_voice_sample_files env1 fs ow so).1 =
          .error (wrapErr (voiceFolder so) e0) ∧
        (Setup.load_voice_sample_files env1 fs ow so).2.1.dirExists
          (voiceTarget env1 so) = true ∧
        (∀ env2, sampleTarget env2 = voiceTarget env1 so →
          (Setup.load_sample_files env2
              (Setup.load_voice_sample_files env1 fs ow so).2.1 false).1 =
              .ok (voiceTarget env1 so) ∧
            clientFree (Setup.load_sample_files env2
              (Setup.load_voice_sample_files env1 fs ow so).2.1 false).2.2
              = true) ∧
        (∀ env2 so2, voiceTarget env2 so2 = voiceTarget env1 so →
          (Setup.load_voice_sample_files env2
              (Setup.load_voice_sample_files env1 fs ow so).2.1 false so2).1 =
              .ok (voiceTarget env1 so) ∧
            clientFree (Setup.load_voice_sample_files env2
              (Setup.load_voice_sample_files env1 fs ow so).2.1 false
              so2).2.2 = true) ∧
        (∀ env2 sf2, selectedTarget env2 sf2 = voiceTarget env1 so →
          (Setup.load_selected_sample_files env2
              (Setup.load_voice_sample_files env1 fs ow so).2.1 sf2 false).1 =
              .ok (voiceTarget env1 so) ∧
            clientFree (Setup.load_selected_sample_files env2
              (Setup.load_voice_sample_files env1 fs ow so).2.1 sf2
              false).2.2 = true)) ∧
    (∀ env1 fs sf ow e0, runsDownload fs (selectedTarget env1 sf) ow →
      (env1.pullOutcome = some e0 ∨
        (env1.pullOutcome = none ∧ env1.unpackOutcome = some e0)) →
      (Setup.load_selected_sample_files env1 fs sf ow).1 =
          .error (wrapErr sf e0) ∧
        (Setup.load_selected_sample_files env1 fs sf ow).2.1.dirExists
          (selectedTarget env1 sf) = true ∧
        (∀ env2, sampleTarget env2 = selectedTarget env1 sf →
          (Setup.load_sample_files env2
              (Setup.load_selected_sample_files env1 fs sf ow).2.1 false).1 =
              .ok (selectedTarget env1 sf) ∧
            clientFree (Setup.load_sample_files env2
              (Setup.load_selected_sample_files env1 fs sf ow).2.1
              false).2.2 = true) ∧
        (∀ env2 so2, voiceTarget env2 so2 = selectedTarget env1 sf →
          (Setup.load_voice_sample_files env2
              (Setup.load_selected_sample_files env1 fs sf ow).2.1 false
              so2).1 = .ok (selectedTarget env1 sf) ∧
            clientFree (Setup.load_voice_sample_files env2
              (Setup.load_selected_sample_files env1 fs sf ow).2.1 false
              so2).2.2 = true) ∧
        (∀ env2 sf2, selectedTarget env2 sf2 = selectedTarget env1 sf →
          (Setup.load_selected_sample_files env2
              (Setup.load_selected_sample_files env1 fs sf ow).2.1 sf2
              false).1 = .ok (selectedTarget env1 sf) ∧
            clientFree (Setup.load_selected_sample_files env2
              (Setup.load_selected_sample_files env1 fs sf ow).2.1 sf2
              false).2.2 = true)) := by
  refine ⟨?_, ?_, ?_⟩
  · intro env1 fs ow e0 h hfail
    rw [load_sample_files_eq_core]
    obtain ⟨he, hd⟩ := fetchCore_fail_dir_created "sample_files" "sample_files"
      env1 fs ow e0 h hfail
    refine ⟨he, hd, ?_, ?_, ?_⟩
    · intro env2 htgt
      rw [load_sample_files_eq_core]
      exact fetchCore_short_at "sample_files" "sample_files" env2 _
        (sampleTarget env1) htgt hd
    · intro env2 so2 htgt
      rw [load_voice_sample_files_eq_core]
      exact fetchCore_short_at (if so2 then "voice_small" else "voice_all")
        (if so2 then "voice_sample_files_small" else "voice_sample_files")
        env2 _ (sampleTarget env1) htgt hd
    · intro env2 sf2 htgt
      rw [load_selected_sample_files_eq_core]
      exact fetchCore_short_at sf2 sf2 env2 _ (sampleTarget env1) htgt hd
  · intro env1 fs ow so e0 h hfail
    rw [load_voice_sample_files_eq_core]
    obtain ⟨he, hd⟩ := fetchCore_fail_dir_created
      (if so then "voice_small" else "voice_all")
      (if so then "voice_sample_files_small" else "voice_sample_files")
      env1 fs ow e0 h hfail
    refine ⟨he, hd, ?_, ?_, ?_⟩
    · intro env2 htgt
      rw [load_sample_files_eq_core]
      exact fetchCore_short_at "sample_files" "sample_files" env2 _
        (voiceTarget env1 so) htgt hd
    · intro env2 so2 htgt
      rw [load_voice_sample_files_eq_core]
      exact fetchCore_short_at (if so2 then "voice_small" else "voice_all")
        (if so2 then "voice_sample_files_small" else "voice_sample_files")
        env2 _ (voiceTarget env1 so) htgt hd
    · intro env2 sf2 htgt
      rw [load_selected_sample_files_eq_core]
      exact fetchCore_short_at sf2 sf2 env2 _ (voiceTarget env1 so) htgt hd
  · intro env1 fs sf ow e0 h hfail
    rw [load_selected_sample_files_eq_core]
    obtain ⟨he, hd⟩ := fetchCore_fail_dir_created sf sf env1 fs ow e0 h hfail
    refine ⟨he, hd, ?_, ?_, ?_⟩
    · intro env2 htgt
      rw [load_sample_files_eq_core]
      exact fetchCore_short_at "sample_files" "sample_files" env2 _
        (selectedTarget env1 sf) htgt hd
    · intro env2 so2 htgt
      rw [load_voice_sample_files_eq_core]
      exact fetchCore_short_at (if so2 then "voice_small" else "voice_all")
        (if so2 then "voice_sample_files_small" else "voice_sample_files")
        env2 _ (selectedTarget env1 sf) htgt hd
    · intro env2 sf2 htgt
      rw [load_selected_sample_files_eq_core]
      exact fetchCore_short_at sf2 sf2 env2 _ (selectedTarget env1 sf) htgt hd

/-- C5 witness: a concrete failed voice download leaves the
voice_sample_files_small directory, and subsequent over_write=false calls —
the voice loader itself and the named-folder loader on the same directory —
short-circuit with no client calls. -/
theorem C5_failed_run_then_short_circuit_test :
    runsDownload fsEmpty (voiceTarget envPullFail true) true ∧
      (Setup.load_voice_sample_files envPullFail fsEmpty true true).1 =
        .error (wrapErr "voice_small" (.exc "ConnectionError")) ∧
      (Setup.load_voice_sample_files envOk
          (Setup.load_voice_sample_files envPullFail fsEmpty true true).2.1
          false true).1 = .ok (voiceTarget envPullFail true) ∧
      clientFree (Setup.load_voice_sample_files envOk
        (Setup.load_voice_sample_files envPullFail fsEmpty true true).2.1
        false true).2.2 = true ∧
      (Setup.load_selected_sample_files envOk
          (Setup.load_voice_sample_files envPullFail fsEmpty true true).2.1
          "voice_sample_files_small" false).1 =
        .ok (voiceTarget envPullFail true) ∧
      clientFree (Setup.load_selected_sample_files envOk
        (Setup.load_voice_sample_files envPullFail fsEmpty true true).2.1
        "voice_sample_files_small" false).2.2 = true := by
  have h := C5_failed_run_then_short_circuit.2.1 envPullFail fsEmpty true true
    (.exc "ConnectionError") (by decide) (Or.inl rfl)
  have hv := h.2.2.2.1 envOk true rfl
  have hs := h.2.2.2.2 envOk "voice_sample_files_small" rfl
  exact ⟨by decide, h.1, hv.1, hv.2, hs.1, hs.2⟩

/-- C6: download-and-unpack always fetches the object named
`<folder_name>.zip` (and nothing else), and the named-folder loader called
with no folder argument — the source default `sample_folder="microsoft_ir"`
— requests microsoft_ir.zip. -/
theorem C6_zip_key_and_default_folder :
    (∀ f p b env fs,
      Event.pullFile (f ++ ".zip") (p ++ [f ++ ".zip"]) b ∈
        (Setup.download_and_unpack f p b env fs).2.2 ∧
      (∀ k d bb, Event.pullFile k d bb ∈
        (Setup.download_and_unpack f p b env fs).2.2 → k = f ++ ".zip")) ∧
    (∀ env fs ow,
      (∀ k d bb, Event.pullFile k d bb ∈
        (Setup.load_selected_sample_files_default env fs ow).2.2 →
        k = "microsoft_ir.zip") ∧
      (runsDownload fs (selectedTarget env "microsoft_ir") ow →
        Event.pullFile "microsoft_ir.zip"
          (selectedTarget env "microsoft_ir" ++ ["microsoft_ir.zip"])
          env.sample_files_bucket ∈
          (Setup.load_selected_sample_files_default env fs ow).2.2)) := by
  refine ⟨?_, ?_⟩
  · intro f p b env fs
    exact ⟨dau_pull_mem f p b env fs,
      fun k d bb hm => (dau_pull_shape f p b env fs k d bb hm).1⟩
  · intro env fs ow
    constructor
    · intro k d bb hm
      rw [load_selected_default_eq_core] at hm
      exact (fetchCore_pull_shape _ _ env fs ow k d bb hm).1
    · intro h
      rw [load_selected_default_eq_core]
      exact (fetchCore_run_events "microsoft_ir" "microsoft_ir" env fs ow h).1

/-- C6 witness: the default-argument call on a concrete empty workspace
fetches microsoft_ir.zip. -/
theorem C6_zip_key_and_default_folder_test :
    runsDownload fsEmpty (selectedTarget envOk "microsoft_ir") false ∧
      Event.pullFile "microsoft_ir.zip"
        (selectedTarget envOk "microsoft_ir" ++ ["microsoft_ir.zip"])
        envOk.sample_files_bucket ∈
        (Setup.load_selected_sample_files_default envOk fsEmpty false).2.2 := by
  have h := C6_zip_key_and_default_folder.2 envOk fsEmpty false
  exact ⟨by decide, h.2 (by decide)⟩

/-- C7: when fetch, extraction and deletion all succeed, the loader returns
normally and the temporary archive `<folder_name>.zip` no longer exists in
the target directory. -/
theorem C7_zip_removed_on_success :
    (∀ env fs ow, runsDownload fs (sampleTarget env) ow →
      env.pullOutcome = none → env.unpackOutcome = none →
      env.unlinkOutcome = none →
      (Setup.load_sample_files env fs ow).1 = .ok (sampleTarget env) ∧
        (Setup.load_sample_files env fs ow).2.1.fileExists
          (sampleTarget env ++ ["sample_files.zip"]) = false) ∧
    (∀ env fs ow so, runsDownload fs (voiceTarget env so) ow →
      env.pullOutcome = none → env.unpackOutcome = none →
      env.unlinkOutcome = none →
      (Setup.load_voice_sample_files env fs ow so).1 = .ok (voiceTarget env so) ∧
        (Setup.load_voice_sample_files env fs ow so).2.1.fileExists
          (voiceTarget env so ++ [voiceFolder so ++ ".zip"]) = false) ∧
    (∀ env fs ow sf, runsDownload fs (selectedTarget env sf) ow →
      env.pullOutcome = none → env.unpackOutcome = none →
      env.unlinkOutcome = none →
      (Setup.load_selected_sample_files env fs sf ow).1 =
          .ok (selectedTarget env sf) ∧
        (Setup.load_selected_sample_files env fs sf ow).2.1.fileExists
          (selectedTarget env sf ++ [sf ++ ".zip"]) = false) := by
  refine ⟨?_, ?_, ?_⟩
  · intro env fs ow h hp hu hl
    rw [load_sample_files_eq_core]
    exact fetchCore_ok_zip_gone "sample_files" "sample_files" env fs ow h hp hu hl
  · intro env fs ow so h hp hu hl
    rw [load_voice_sample_files_eq_core]
    exact fetchCore_ok_zip_gone (if so then "voice_small" else "voice_all")
      (if so then "voice_sample_files_small" else "voice_sample_files")
      env fs ow h hp hu hl
  · intro env fs ow sf h hp hu hl
    rw [load_selected_sample_files_eq_core]
    exact fetchCore_ok_zip_gone sf sf env fs ow h hp hu hl

/-- C7 witness: a concrete successful download leaves no sample_files.zip
in the target directory. -/
theorem C7_zip_removed_on_success_test :
    runsDownload fsEmpty (sampleTarget envOk) false ∧
      (Setup.load_sample_files envOk fsEmpty false).1 = .ok (sampleTarget envOk) ∧
      (Setup.load_sample_files envOk fsEmpty false).2.1.fileExists
        (sampleTarget envOk ++ ["sample_files.zip"]) = false := by
  have h := C7_zip_removed_on_success.1 envOk fsEmpty false (by decide) rfl rfl rfl
  exact ⟨by decide, h.1, h.2⟩

/-- C8: if extraction fails after a successful fetch, the loader raises and
performs no cleanup: the temporary `<folder_name>.zip` remains in the
target directory and no deletion of it is ever attempted. -/
theorem C8_no_cleanup_on_extraction_failure :
    (∀ env fs ow e0, runsDownload fs (sampleTarget env) ow →
      env.pullOutcome = none → env.unpackOutcome = some e0 →
      (Setup.load_sample_files env fs ow).1 =
          .error (wrapErr "sample_files" e0) ∧
        (Setup.load_sample_files env fs ow).2.1.fileExists
          (sampleTarget env ++ ["sample_files.zip"]) = true ∧
        (∀ q, Event.unlink q ∉ (Setup.load_sample_files env fs ow).2.2)) ∧
    (∀ env fs ow so e0, runsDownload fs (voiceTarget env so) ow →
      env.pullOutcome = none → env.unpackOutcome = some e0 →
      (Setup.load_voice_sample_files env fs ow so).1 =
          .error (wrapErr (voiceFolder so) e0) ∧
        (Setup.load_voice_sample_files env fs ow so).2.1.fileExists
          (voiceTarget env so ++ [voiceFolder so ++ ".zip"]) = true ∧
        (∀ q, Event.unlink q ∉
          (Setup.load_voice_sample_files env fs ow so).2.2)) ∧
    (∀ env fs ow sf e0, runsDownload fs (selectedTarget env sf) ow →
      env.pullOutcome = none → env.unpackOutcome = some e0 →
      (Setup.load_selected_sample_files env fs sf ow).1 =
          .error (wrapErr sf e0) ∧
        (Setup.load_selected_sample_files env fs sf ow).2.1.fileExists
          (selectedTarget env sf ++ [sf ++ ".zip"]) = true ∧
        (∀ q, Event.unlink q ∉
          (Setup.load_selected_sample_files env fs sf ow).2.2)) := by
  refine ⟨?_, ?_, ?_⟩
  · intro env fs ow e0 h hp hu
    rw [load_sample_files_eq_core]
    exact fetchCore_unpack_fail_zip_remains "sample_files" "sample_files"
      env fs ow e0 h hp hu
  · intro env fs ow so e0 h hp hu
    rw [load_voice_sample_files_eq_core]
    exact fetchCore_unpack_fail_zip_remains
      (if so then "voice_small" else "voice_all")
      (if so then "voice_sample_files_small" else "voice_sample_files")
      env fs ow e0 h hp hu
  · intro env fs ow sf e0 h hp hu
    rw [load_selected_sample_files_eq_core]
    exact fetchCore_unpack_fail_zip_remains sf sf env fs ow e0 h hp hu

/-- C8 witness: a concrete failed extraction leaves sample_files.zip in the
target directory while the loader raises the uniform error. -/
theorem C8_no_cleanup_on_extraction_failure_test :
    runsDownload fsEmpty (sampleTarget envUnpackFail) false ∧
      (Setup.load_sample_files envUnpackFail fsEmpty false).1 =
        .error (wrapErr "sample_files" (.exc "BadZipFile")) ∧
      (Setup.load_sample_files envUnpackFail fsEmpty false).2.1.fileExists
        (sampleTarget envUnpackFail ++ ["sample_files.zip"]) = true := by
  have h := C8_no_cleanup_on_extraction_failure.1 envUnpackFail fsEmpty false
    (.exc "BadZipFile") (by decide) rfl rfl
  exact ⟨by decide, h.1, h.2.1⟩

/-- C9 counterexample: when a regular file occupies the target path and
over_write is false, the loader returns normally with the target path, but
no such directory exists at return time — the existence short-circuit tests
path existence, not directory-ness. -/
theorem C9_counterexample :
    (Setup.load_sample_files envOk fsFileAtTarget false).1 =
        .ok (sampleTarget envOk) ∧
      (Setup.load_sample_files envOk fsFileAtTarget false).2.1.dirExists
        (sampleTarget envOk) = false := by
  exact ⟨by decide, by decide⟩

/-- C9 (amended): whenever a loader returns normally, the returned path is
the workspace root joined with the loader's subdirectory name and that path
exists on the filesystem at return time; it is moreover a directory unless
a regular file already occupied the path before the call.  Nothing is
guaranteed about the completeness of its contents. -/
theorem C9_return_path_exists :
    (∀ env fs ow p fs2 tr,
      Setup.load_sample_files env fs ow = (.ok p, fs2, tr) →
      p = sampleTarget env ∧ fs2.pathExists p = true ∧
        (fs.fileExists (sampleTarget env) = false →
          fs2.dirExists (sampleTarget env) = true)) ∧
    (∀ env fs ow so p fs2 tr,
      Setup.load_voice_sample_files env fs ow so = (.ok p, fs2, tr) →
      p = voiceTarget env so ∧ fs2.pathExists p = true ∧
        (fs.fileExists (voiceTarget env so) = false →
          fs2.dirExists (voiceTarget env so) = true)) ∧
    (∀ env fs sf ow p fs2 tr,
      Setup.load_selected_sample_files env fs sf ow = (.ok p, fs2, tr) →
      p = selectedTarget env sf ∧ fs2.pathExists p = true ∧
        (fs.fileExists (selectedTarget env sf) = false →
          fs2.dirExists (selectedTarget env sf) = true)) := by
  refine ⟨?_, ?_, ?_⟩
  · intro env fs ow p fs2 tr hcall
    rw [load_sample_files_eq_core] at hcall
    obtain ⟨hp, hpe, himp⟩ := fetchCore_ok_inv _ _ env fs ow p fs2 tr hcall
    subst hp
    exact ⟨rfl, hpe, himp⟩
  · intro env fs ow so p fs2 tr hcall
    rw [load_voice_sample_files_eq_core] at hcall
    obtain ⟨hp, hpe, himp⟩ := fetchCore_ok_inv _ _ env fs ow p fs2 tr hcall
    subst hp
    exact ⟨rfl, hpe, himp⟩
  · intro env fs sf ow p fs2 tr hcall
    rw [load_selected_sample_files_eq_core] at hcall
    obtain ⟨hp, hpe, himp⟩ := fetchCore_ok_inv _ _ env fs ow p fs2 tr hcall
    subst hp
    exact ⟨rfl, hpe, himp⟩

/-- C9 witness: a concrete successful download returns a path that exists
as a directory afterwards. -/
theorem C9_return_path_exists_test :
    (Setup.load_sample_files envOk fsEmpty false).2.1.pathExists
        (sampleTarget envOk) = true ∧
      (Setup.load_sample_files envOk fsEmpty false).2.1.dirExists
        (sampleTarget envOk) = true := by
  have h := C9_return_path_exists.1 envOk fsEmpty false (sampleTarget envOk)
    (Setup.load_sample_files envOk fsEmpty false).2.1
    (Setup.load_sample_files envOk fsEmpty false).2.2 (by decide)
  exact ⟨h.2.1, h.2.2 (by decide)⟩

/-- A workspace whose sample_files directory already holds a document. -/
def fsPopulated : FS :=
  ⟨[wsPath ++ ["sample_files", "contract.pdf"]],
   [["home"], ["home", "user"], wsPath, wsPath ++ ["sample_files"]]⟩

/-- C10 counterexample: a pre-existing file at the reserved temporary path
`<target>/sample_files.zip` (for instance left over from an earlier failed
extraction) is not an entry of the new archive, yet an over_write=true call
deletes it: the claim that every pre-existing non-entry file survives is
false. -/
theorem C10_counterexample :
    (wsPath ++ ["sample_files", "sample_files.zip"]) ∈ fsWithLeftoverZip.files ∧
      "sample_files.zip" ∉ envOk.archiveEntries ∧
      (Setup.load_sample_files envOk fsWithLeftoverZip true).1 =
        .ok (sampleTarget envOk) ∧
      (wsPath ++ ["sample_files", "sample_files.zip"]) ∉
        (Setup.load_sample_files envOk fsWithLeftoverZip true).2.1.files := by
  exact ⟨by decide, by decide, by decide, by decide⟩

/-- C10 (amended): no loader call deletes or clears pre-existing contents,
with one exception: any file present before the call that is not an entry
of the newly downloaded archive and is not the reserved temporary archive
path `<target>/<folder_name>.zip` still exists after the call returns, and
every pre-existing directory still exists. -/
theorem C10_no_deletion_of_preexisting :
    (∀ env fs ow q, q ∈ fs.files →
      q ≠ sampleTarget env ++ ["sample_files.zip"] →
      (∀ n ∈ env.archiveEntries, q ≠ sampleTarget env ++ [n]) →
      q ∈ (Setup.load_sample_files env fs ow).2.1.files) ∧
    (∀ env fs ow d, fs.dirExists d = true →
      (Setup.load_sample_files env fs ow).2.1.dirExists d = true) ∧
    (∀ env fs ow so q, q ∈ fs.files →
      q ≠ voiceTarget env so ++ [voiceFolder so ++ ".zip"] →
      (∀ n ∈ env.archiveEntries, q ≠ voiceTarget env so ++ [n]) →
      q ∈ (Setup.load_voice_sample_files env fs ow so).2.1.files) ∧
    (∀ env fs ow so d, fs.dirExists d = true →
      (Setup.load_voice_sample_files env fs ow so).2.1.dirExists d = true) ∧
    (∀ env fs sf ow q, q ∈ fs.files →
      q ≠ selectedTarget env sf ++ [sf ++ ".zip"] →
      (∀ n ∈ env.archiveEntries, q ≠ selectedTarget env sf ++ [n]) →
      q ∈ (Setup.load_selected_sample_files env fs sf ow).2.1.files) ∧
    (∀ env fs sf ow d, fs.dirExists d = true →
      (Setup.load_selected_sample_files env fs sf ow).2.1.dirExists d
        = true) := by
  refine ⟨?_, ?_, ?_, ?_, ?_, ?_⟩
  · intro env fs ow q hq hne _
    rw [load_sample_files_eq_core]
    exact fetchCore_files_preserved "sample_files" "sample_files" env fs ow
      q hq hne
  · intro env fs ow d hd
    rw [load_sample_files_eq_core]
    exact fetchCore_dirExists_mono "sample_files" "sample_files" env fs ow d hd
  · intro env fs ow so q hq hne _
    rw [load_voice_sample_files_eq_core]
    exact fetchCore_files_preserved (if so then "voice_small" else "voice_all")
      (if so then "voice_sample_files_small" else "voice_sample_files")
      env fs ow q hq hne
  · intro env fs ow so d hd
    rw [load_voice_sample_files_eq_core]
    exact fetchCore_dirExists_mono _ _ env fs ow d hd
  · intro env fs sf ow q hq hne _
    rw [load_selected_sample_files_eq_core]
    exact fetchCore_files_preserved sf sf env fs ow q hq hne
  · intro env fs sf ow d hd
    rw [load_selected_sample_files_eq_core]
    exact fetchCore_dirExists_mono sf sf env fs ow d hd

/-- C10 witness: a concrete pre-existing document in the populated sample
directory survives an over_write=true re-download. -/
theorem C10_no_deletion_of_preexisting_test :
    (wsPath ++ ["sample_files", "contract.pdf"]) ∈ fsPopulated.files ∧
      (wsPath ++ ["sample_files", "contract.pdf"]) ∈
        (Setup.load_sample_files envOk fsPopulated true).2.1.files := by
  have h := C10_no_deletion_of_preexisting.1 envOk fsPopulated true
    (wsPath ++ ["sample_files", "contract.pdf"]) (by decide) (by decide)
    (by decide)
  exact ⟨by decide, h⟩

end Llmware
